import Mathlib

/-!
Shallow embedding of the internal-leave-api repository (NestJS/TypeORM service
for employee leave requests). Pure translations of the source functions:
auth service (auth/services/auth.service.ts), leaves service
(leaves/services/leaves.service.ts, unnamed part_011), the controllers
(auth part_009, leaves leaves.controller.ts lines 1-37 and part_013), the
DTO validators (auth.dto.ts part_007, leave.dto.ts part_010) and the global
exception filter (common/filters/all-exceptions.filter.ts, part_006).
Persistence is modelled as explicit list-valued stores with the TypeORM
semantics the entities declare (unique email column, PENDING default on the
status column, update-by-id reporting an affected count). The JWT guard and
RolesGuard are referenced by the controllers but absent from the repository
snapshot; they are modelled from the spec where noted.
-/

namespace LeaveApi

/-- Role enumeration from users/entities/user.entity.ts (UserRole: user, admin). -/
inductive UserRole where
  | user
  | admin
deriving DecidableEq

/-- User entity (users/entities/user.entity.ts): generated id, unique email,
password hash column, nullable name, role column defaulting to user. -/
structure User where
  id : Nat
  email : String
  password : String
  name : Option String
  role : UserRole
deriving DecidableEq

/-- Leave entity (leaves/entities/leave.entity.ts): generated id, type,
startDate, endDate, status column with default PENDING, nullable reason,
many-to-one owning user (kept as the owning user id). -/
structure Leave where
  id : Nat
  type : String
  startDate : String
  endDate : String
  status : String
  reason : Option String
  userId : Nat
deriving DecidableEq

abbrev UserStore := List User
abbrev LeaveStore := List Leave

/-- Model of the external bcrypt.hash collaborator with cost factor 10
(auth.service.ts line 17): an injective tagging function, enough for the
claims, which depend only on the digest value that gets stored and returned. -/
def bcryptHash (plaintext : String) : String := "$2b$10$" ++ plaintext

/-- Model of the external class-validator IsEmail check used by AuthRegisterDto:
one at-sign with a nonempty local part and a dotted, nonempty-part domain.
Accepts the addresses exercised by the repository tests and rejects the
malformed ones they use (for example invalid-email). -/
def isEmail (s : String) : Bool :=
  let cs := s.toList
  let lp := cs.takeWhile (fun ch => ch != '@')
  let dom := (cs.dropWhile (fun ch => ch != '@')).drop 1
  decide (cs.count '@' = 1) && !lp.isEmpty && !dom.isEmpty &&
    dom.contains '.' &&
    decide (dom.head? ≠ some '.') && decide (dom.getLast? ≠ some '.')

/-- Model of the external class-validator IsDateString check (validator.js
isISO8601, non-strict) restricted to the calendar-date production YYYY-MM-DD
that the DTO documents and the tests use: four digits, dash, month 01-12,
dash, day 01-31. The non-strict check does not test calendar validity and
performs no comparison between two dates. -/
def isDateString (s : String) : Bool :=
  match s.toList with
  | [y1, y2, y3, y4, '-', m1, m2, '-', d1, d2] =>
    y1.isDigit && y2.isDigit && y3.isDigit && y4.isDigit &&
    m1.isDigit && m2.isDigit && d1.isDigit && d2.isDigit &&
    (let m := (m1.toNat - 48) * 10 + (m2.toNat - 48)
     decide (1 ≤ m) && decide (m ≤ 12)) &&
    (let d := (d1.toNat - 48) * 10 + (d2.toNat - 48)
     decide (1 ≤ d) && decide (d ≤ 31))
  | _ => false

/-- Database-level failure of a store operation (raised by TypeORM as a
QueryFailedError, which is a plain Error, not an HttpException). -/
inductive DbError where
  | uniqueViolation (detail : String)
deriving DecidableEq

/-- Next generated primary key for the user table. -/
def nextUserId (store : UserStore) : Nat :=
  store.foldr (fun u m => max u.id m) 0 + 1

/-- TypeORM save on the User repository. The email column is declared
unique (user.entity.ts), so the insert fails with a QueryFailedError when
the email is already present; otherwise the row is inserted with a generated
id and the saved record is returned. -/
def userRepo_save (store : UserStore) (email password : String)
    (name : Option String) (role : UserRole) :
    Except DbError (UserStore × User) :=
  if store.any (fun u => u.email = email) then
    .error (.uniqueViolation
      ("duplicate key value violates unique constraint on email " ++ email))
  else
    let u : User := ⟨nextUserId store, email, password, name, role⟩
    .ok (store ++ [u], u)

/-- AuthService.register (auth/services/auth.service.ts lines 16-20): hashes
the password with bcrypt cost 10, creates a user record with role USER and no
other fields than email, hashed password and name, saves it, and returns the
saved record exactly as the repository produced it. -/
def authService_register (store : UserStore) (email password name : String) :
    Except DbError (UserStore × User) :=
  userRepo_save store email (bcryptHash password) (some name) UserRole.user

/-- Body of POST /auth/register as validated by AuthRegisterDto
(auth/dto/auth.dto.ts, part_007): email, password, name, and an optional
role property that is declared on the DTO but never forwarded by the
controller. -/
structure AuthRegisterBody where
  email : String
  password : String
  name : String
  role : Option UserRole
deriving DecidableEq

/-- AuthRegisterDto validation (part_007): IsEmail on email, MinLength 6 on
password, MinLength 2 on name; role is optional and enum-typed. -/
def authRegisterDtoValid (b : AuthRegisterBody) : Bool :=
  isEmail b.email && decide (6 ≤ b.password.length) && decide (2 ≤ b.name.length)

/-- Exceptions reaching the global filter, as the filter itself discriminates
them (part_006): an HttpException carrying a status and an object response
with message and error fields, any other JavaScript Error carrying a message
(for example a TypeORM QueryFailedError), or a thrown non-Error value. -/
inductive JsException where
  | http (status : Nat) (message : String) (error : Option String)
  | jsError (message : String)
  | nonError
deriving DecidableEq

/-- JSON error envelope produced by the filter: statusCode, message and the
optional errors field. The timestamp field is a clock read and carries no
claim-relevant information, so it is omitted from the embedding. -/
structure ErrorResponse where
  statusCode : Nat
  message : String
  errors : Option String
deriving DecidableEq

/-- AllExceptionsFilter.catch (common/filters/all-exceptions.filter.ts,
part_006): an HttpException keeps its status and its response message
(falling back to the generic message when the message field is falsy);
any other Error keeps status 500 but overwrites the message with
exception.message; anything else yields the generic 500. -/
def allExceptionsFilter_catch (e : JsException) : ErrorResponse :=
  match e with
  | .http s m err =>
    ⟨s, if m = "" then "Internal server error" else m, err⟩
  | .jsError m => ⟨500, m, none⟩
  | .nonError => ⟨500, "Internal server error", none⟩

/-- Outcome of POST /auth/register at the HTTP boundary. -/
inductive RegisterResult where
  | created (u : User)
  | error (resp : ErrorResponse)
deriving DecidableEq

/-- Full pipeline of POST /auth/register: the ValidationPipe applies
AuthRegisterDto and rejects invalid bodies with 400; the controller
(AuthController.register, part_009 lines 16-18) forwards only email,
password and name to AuthService.register; a duplicate-key database error
escapes as a plain Error and is mapped by AllExceptionsFilter. On success
the controller returns the saved user record as the response body. -/
def registerEndpoint (store : UserStore) (b : AuthRegisterBody) :
    RegisterResult × UserStore :=
  if !authRegisterDtoValid b then
    (.error (allExceptionsFilter_catch (.http 400 "Bad Request" (some "Bad Request"))), store)
  else
    match authService_register store b.email b.password b.name with
    | .ok (store1, u) => (.created u, store1)
    | .error (.uniqueViolation d) =>
      (.error (allExceptionsFilter_catch (.jsError d)), store)

/-- Modelled from the spec: the claim set that the JWT strategy attaches to
the request as req.user after verifying the bearer token. The files
auth/jwt/jwt-auth.guard.ts and the JWT strategy are referenced by every
controller but are absent from the repository snapshot; spec section 4.4
states that on success the authentication stage attaches subject id and role
to request-scoped context. -/
structure ClaimSet where
  userId : Nat
  role : UserRole
deriving DecidableEq

/-- Modelled from the spec: RolesGuard (common/guards/roles.guard.ts, absent
from the snapshot) implements the authorization stage of spec section 4.4:
given the required-role set declared on the route, a role mismatch fails
with Forbidden and a match, or an empty requirement, proceeds. -/
def rolesGuard_canActivate (required : List UserRole) (c : ClaimSet) : Bool :=
  required.isEmpty || required.contains c.role

/-- Result record of a TypeORM update call: the number of affected rows. -/
structure UpdateResult where
  affected : Nat
deriving DecidableEq

/-- Next generated primary key for the leave table. -/
def nextLeaveId (store : LeaveStore) : Nat :=
  store.foldr (fun l m => max l.id m) 0 + 1

/-- LeavesService.create (leaves/services/leaves.service.ts, part_011
lines 13-15): repository save of the partial entity assembled by the
controller. No status is supplied, so the column default PENDING from
leave.entity.ts line 18 applies; the saved row is returned. -/
def leavesService_create (store : LeaveStore) (type startDate endDate : String)
    (reason : Option String) (userId : Nat) : LeaveStore × Leave :=
  let l : Leave := ⟨nextLeaveId store, type, startDate, endDate, "PENDING", reason, userId⟩
  (store ++ [l], l)

/-- LeavesService.updateStatus (part_011 lines 25-27): TypeORM
repository.update by id with the caller-supplied status string. The update
overwrites the status of every row whose id matches, reports the affected
count, and does not fail when no row matches. -/
def leavesService_updateStatus (store : LeaveStore) (id : Nat) (status : String) :
    LeaveStore × UpdateResult :=
  (store.map (fun l => if l.id = id then { l with status := status } else l),
   ⟨(store.filter (fun l => l.id = id)).length⟩)

/-- Body of POST /leaves as carried on the wire: the CreateLeaveDto fields
(leave.dto.ts, part_010 lines 3-16) plus extraUser, an extra user property a
client may put in the JSON to claim another owner; extraUser is not declared
on the DTO, so the global ValidationPipe with whitelist and
forbidNonWhitelisted (main.ts line 11) rejects bodies carrying it. -/
structure CreateLeaveBody where
  type : String
  startDate : String
  endDate : String
  reason : Option String
  extraUser : Option Nat
deriving DecidableEq

/-- CreateLeaveDto validation (part_010): IsString on type, IsDateString on
startDate and endDate, optional string reason. No relation between the two
dates is checked. -/
def createLeaveDtoValid (b : CreateLeaveBody) : Bool :=
  isDateString b.startDate && isDateString b.endDate

/-- Outcome of POST /leaves at the HTTP boundary. -/
inductive CreateLeaveResult where
  | created (l : Leave)
  | badRequest (resp : ErrorResponse)
deriving DecidableEq

/-- Full pipeline of POST /leaves (LeavesController.create,
leaves.controller.ts lines 11-18): the global ValidationPipe rejects
non-whitelisted properties and invalid DTO fields with 400; the handler
spreads the validated body and then overwrites the user key with the id
taken from req.user, so ownership always comes from the verified claim set;
LeavesService.create persists with the PENDING default. -/
def createLeaveEndpoint (c : ClaimSet) (b : CreateLeaveBody) (store : LeaveStore) :
    CreateLeaveResult × LeaveStore :=
  if b.extraUser.isSome then
    (.badRequest (allExceptionsFilter_catch
      (.http 400 "property user should not exist" (some "Bad Request"))), store)
  else if !createLeaveDtoValid b then
    (.badRequest (allExceptionsFilter_catch
      (.http 400 "startDate must be a valid ISO 8601 date string" (some "Bad Request"))), store)
  else
    let r := leavesService_create store b.type b.startDate b.endDate b.reason c.userId
    (.created r.2, r.1)

/-- Outcome of PUT /leaves/:id/status at the HTTP boundary. -/
inductive StatusUpdateResult where
  | ok (r : UpdateResult)
  | forbidden (resp : ErrorResponse)
deriving DecidableEq

/-- PUT /leaves/:id/status as declared at leaves.controller.ts lines 30-36:
the route carries only the class-level JwtAuthGuard, no RolesGuard and no
Roles metadata, so every authenticated identity reaches
LeavesService.updateStatus directly. -/
def updateStatusEndpointBasic (_c : ClaimSet) (id : Nat) (status : String)
    (store : LeaveStore) : StatusUpdateResult × LeaveStore :=
  let r := leavesService_updateStatus store id status
  (.ok r.2, r.1)

/-- PUT /leaves/:id/status as declared in unnamed part_013 lines 44-56:
UseGuards(RolesGuard) with Roles(ADMIN) on the route. The guard (modelled
from the spec, see rolesGuard_canActivate) runs before the handler: a
non-admin claim set is rejected with Forbidden 403 and no business logic
executes; an admin claim set proceeds to LeavesService.updateStatus. -/
def updateStatusEndpointGuarded (c : ClaimSet) (id : Nat) (status : String)
    (store : LeaveStore) : StatusUpdateResult × LeaveStore :=
  if rolesGuard_canActivate [UserRole.admin] c then
    let r := leavesService_updateStatus store id status
    (.ok r.2, r.1)
  else
    (.forbidden (allExceptionsFilter_catch
      (.http 403 "Forbidden resource" (some "Forbidden"))), store)

/-- Status strings admitted by the data model of the spec: PENDING, APPROVED
and REJECTED. -/
def statusValid (s : String) : Bool :=
  s = "PENDING" || s = "APPROVED" || s = "REJECTED"

/-- The leave store after POST /leaves is either unchanged (a rejected
request) or extended by exactly one leave owned by the claim set subject and
carrying the PENDING default. -/
lemma createLeaveEndpoint_store_eq (c : ClaimSet) (b : CreateLeaveBody)
    (store : LeaveStore) :
    (createLeaveEndpoint c b store).2 = store ∨
    ∃ l, (createLeaveEndpoint c b store).2 = store ++ [l] ∧
      l.userId = c.userId ∧ l.status = "PENDING" := by
  unfold createLeaveEndpoint
  split
  · exact .inl rfl
  · split
    · exact .inl rfl
    · exact .inr ⟨_, rfl, rfl, rfl⟩

/-- The user record produced by a successful AuthService.register always
carries role USER: the service hard-codes UserRole.USER when assembling the
entity and never receives a role from its caller. -/
lemma authService_register_role (store : UserStore) (email password name : String)
    (store1 : UserStore) (u : User)
    (h : authService_register store email password name = .ok (store1, u)) :
    u.role = UserRole.user := by
  unfold authService_register userRepo_save at h
  split at h
  · cases h
  · simp only [Except.ok.injEq, Prod.mk.injEq] at h
    rw [← h.2]

/-- C1 (counterexample): at the PUT /leaves/:id/status route declared at
leaves.controller.ts lines 30-36, which carries no role gate, an
authenticated non-admin identity does not receive Forbidden: the call
reaches the service, reports success, and the leave status changes. -/
theorem updateStatus_basic_no_role_gate :
    updateStatusEndpointBasic ⟨7, UserRole.user⟩ 1 "APPROVED"
        [⟨1, "ANNUAL", "2024-03-01", "2024-03-05", "PENDING", none, 7⟩]
      = (.ok ⟨1⟩,
         [⟨1, "ANNUAL", "2024-03-01", "2024-03-05", "APPROVED", none, 7⟩]) := by
  decide

/-- C1 (amended): at the PUT /leaves/:id/status route of unnamed part_013
lines 44-56, which declares Roles(ADMIN) under RolesGuard, every non-admin
claim set receives Forbidden 403 with the store untouched, for every leave
id and store, whether or not the leave exists; an admin claim set proceeds
exactly as the ungated route does. -/
theorem updateStatus_guarded_role_gate (c : ClaimSet) (id : Nat) (st : String)
    (store : LeaveStore) :
    (c.role ≠ UserRole.admin →
      updateStatusEndpointGuarded c id st store
        = (.forbidden ⟨403, "Forbidden resource", some "Forbidden"⟩, store)) ∧
    (c.role = UserRole.admin →
      updateStatusEndpointGuarded c id st store
        = updateStatusEndpointBasic c id st store) := by
  obtain ⟨uid, r⟩ := c
  constructor
  · intro h
    cases r
    · rfl
    · exact absurd rfl h
  · intro h
    cases r
    · exact UserRole.noConfusion h
    · rfl

/-- C1 (witness): the amended theorem applied at a concrete non-admin claim
set on a concrete store and at a concrete admin claim set. -/
theorem updateStatus_guarded_role_gate_witness :
    updateStatusEndpointGuarded ⟨7, UserRole.user⟩ 2 "APPROVED"
        [⟨2, "SICK", "2024-02-01", "2024-02-02", "PENDING", none, 9⟩]
      = (.forbidden ⟨403, "Forbidden resource", some "Forbidden"⟩,
         [⟨2, "SICK", "2024-02-01", "2024-02-02", "PENDING", none, 9⟩]) ∧
    updateStatusEndpointGuarded ⟨3, UserRole.admin⟩ 2 "APPROVED"
        [⟨2, "SICK", "2024-02-01", "2024-02-02", "PENDING", none, 9⟩]
      = updateStatusEndpointBasic ⟨3, UserRole.admin⟩ 2 "APPROVED"
        [⟨2, "SICK", "2024-02-01", "2024-02-02", "PENDING", none, 9⟩] :=
  ⟨(updateStatus_guarded_role_gate ⟨7, UserRole.user⟩ 2 "APPROVED"
      [⟨2, "SICK", "2024-02-01", "2024-02-02", "PENDING", none, 9⟩]).1 (by decide),
   (updateStatus_guarded_role_gate ⟨3, UserRole.admin⟩ 2 "APPROVED"
      [⟨2, "SICK", "2024-02-01", "2024-02-02", "PENDING", none, 9⟩]).2 rfl⟩

/-- C2: evaluating the register pipeline at a concrete valid input shows the
record returned to the caller carries the bcrypt digest of the submitted
password in its password field; no layer strips the hash before it reaches
the caller. -/
theorem register_returns_password_hash_present :
    ∃ u store1,
      registerEndpoint [] ⟨"a@x.com", "secret1", "Ann", none⟩ = (.created u, store1) ∧
      u.password = bcryptHash "secret1" :=
  ⟨⟨1, "a@x.com", bcryptHash "secret1", some "Ann", UserRole.user⟩,
   [⟨1, "a@x.com", bcryptHash "secret1", some "Ann", UserRole.user⟩],
   by decide, rfl⟩

/-- C3 (counterexample): an admin request through the gated status route can
store a status outside PENDING, APPROVED, REJECTED; the string BANANA is
persisted verbatim. -/
theorem updateStatus_stores_arbitrary_string :
    (updateStatusEndpointGuarded ⟨1, UserRole.admin⟩ 1 "BANANA"
        [⟨1, "ANNUAL", "2024-03-01", "2024-03-05", "PENDING", none, 7⟩]).2
      = [⟨1, "ANNUAL", "2024-03-01", "2024-03-05", "BANANA", none, 7⟩] ∧
    statusValid "BANANA" = false := by
  decide

/-- C3 (amended): creation always stores the PENDING default, so create
preserves the status enumeration unconditionally, while updateStatus writes
the caller-supplied string verbatim and therefore preserves the enumeration
only when that string is itself one of PENDING, APPROVED, REJECTED. -/
theorem status_values_closed_under_ops (c : ClaimSet) (b : CreateLeaveBody)
    (store : LeaveStore) (id : Nat) (s : String)
    (hinv : ∀ l ∈ store, statusValid l.status = true) :
    (∀ l ∈ (createLeaveEndpoint c b store).2, statusValid l.status = true) ∧
    (statusValid s = true →
      ∀ l ∈ (leavesService_updateStatus store id s).1, statusValid l.status = true) := by
  constructor
  · intro l hl
    rcases createLeaveEndpoint_store_eq c b store with h | ⟨l0, h, _, hs⟩
    · rw [h] at hl
      exact hinv l hl
    · rw [h] at hl
      rcases List.mem_append.1 hl with h1 | h1
      · exact hinv l h1
      · rcases List.mem_singleton.1 h1 with rfl
        rw [hs]
        rfl
  · intro hs l hl
    simp only [leavesService_updateStatus] at hl
    rcases List.mem_map.1 hl with ⟨a, ha, rfl⟩
    by_cases h : a.id = id
    · rw [if_pos h]
      exact hs
    · rw [if_neg h]
      exact hinv a ha

/-- C3 (witness): the amended theorem applied on the empty store at a
concrete create request; the created leave carries a status in the
enumeration. -/
theorem status_values_closed_under_ops_witness :
    statusValid (⟨1, "ANNUAL", "2024-03-01", "2024-03-05", "PENDING", none, 7⟩ : Leave).status
      = true :=
  (status_values_closed_under_ops ⟨7, UserRole.user⟩
      ⟨"ANNUAL", "2024-03-01", "2024-03-05", none, none⟩ [] 3 "APPROVED" (by simp)).1
    ⟨1, "ANNUAL", "2024-03-01", "2024-03-05", "PENDING", none, 7⟩ (by decide)

/-- C4 (counterexample): a leave already in the terminal APPROVED state is
transitioned again by setStatus; the update succeeds (one affected row) and
the stored status becomes REJECTED. -/
theorem approved_leave_transitions_again :
    leavesService_updateStatus
        [⟨1, "ANNUAL", "2024-03-01", "2024-03-05", "APPROVED", none, 7⟩] 1 "REJECTED"
      = ([⟨1, "ANNUAL", "2024-03-01", "2024-03-05", "REJECTED", none, 7⟩], ⟨1⟩) := by
  decide

/-- C4 (amended): setStatus never inspects the current status: for every
leave present in the store, the update overwrites its status with the
requested value whatever the current status is; no state is terminal under
the step relation. -/
theorem updateStatus_overwrites_any_status (store : LeaveStore) (id : Nat)
    (s : String) (l : Leave) (hl : l ∈ store) (hid : l.id = id) :
    { l with status := s } ∈ (leavesService_updateStatus store id s).1 := by
  simp only [leavesService_updateStatus]
  exact List.mem_map.2 ⟨l, hl, by rw [if_pos hid]⟩

/-- C4 (witness): the amended theorem applied to a store holding a REJECTED
leave, which setStatus overwrites to APPROVED. -/
theorem updateStatus_overwrites_any_status_witness :
    (⟨4, "PERSONAL", "2024-05-01", "2024-05-02", "APPROVED", none, 8⟩ : Leave)
      ∈ (leavesService_updateStatus
          [⟨4, "PERSONAL", "2024-05-01", "2024-05-02", "REJECTED", none, 8⟩]
          4 "APPROVED").1 :=
  updateStatus_overwrites_any_status
    [⟨4, "PERSONAL", "2024-05-01", "2024-05-02", "REJECTED", none, 8⟩] 4 "APPROVED"
    ⟨4, "PERSONAL", "2024-05-01", "2024-05-02", "REJECTED", none, 8⟩ (by decide) rfl

/-- C5: registering the same email twice: the first attempt succeeds with
the created record, the second leaves the store unchanged but surfaces as a
500 response carrying the raw duplicate-key message, because the service
performs no duplicate check and the filter maps the database error, a plain
Error, to Internal Server Error instead of a 400 or 409. -/
theorem duplicate_registration_surfaces_500 :
    registerEndpoint [] ⟨"a@x.com", "secret1", "Ann", none⟩
      = (.created ⟨1, "a@x.com", "$2b$10$secret1", some "Ann", UserRole.user⟩,
         [⟨1, "a@x.com", "$2b$10$secret1", some "Ann", UserRole.user⟩]) ∧
    registerEndpoint [⟨1, "a@x.com", "$2b$10$secret1", some "Ann", UserRole.user⟩]
        ⟨"a@x.com", "secret1", "Ann", none⟩
      = (.error ⟨500, "duplicate key value violates unique constraint on email a@x.com", none⟩,
         [⟨1, "a@x.com", "$2b$10$secret1", some "Ann", UserRole.user⟩]) := by
  decide

/-- C6: setStatus on an id absent from the store does not fail: the TypeORM
update reports zero affected rows and the admin-gated endpoint reports
success with the store unchanged, rather than a NotFound error. -/
theorem updateStatus_missing_id_reports_success :
    leavesService_updateStatus [] 999 "APPROVED" = ([], ⟨0⟩) ∧
    updateStatusEndpointGuarded ⟨1, UserRole.admin⟩ 999 "APPROVED" []
      = (.ok ⟨0⟩, []) := by
  decide

/-- Numeric key of a YYYY-MM-DD string, its digits read as one number, used
only to state which of two concrete dates is the earlier one. -/
def dateKey (s : String) : Nat :=
  (s.toList.filter Char.isDigit).foldl (fun n ch => n * 10 + (ch.toNat - 48)) 0

/-- C7 (counterexample): a create request whose endDate precedes its
startDate passes validation and is persisted: both fields are individually
well-formed date strings and no ordering check exists. -/
theorem createLeave_accepts_reversed_dates :
    createLeaveEndpoint ⟨7, UserRole.user⟩
        ⟨"ANNUAL", "2024-03-05", "2024-03-01", none, none⟩ []
      = (.created ⟨1, "ANNUAL", "2024-03-05", "2024-03-01", "PENDING", none, 7⟩,
         [⟨1, "ANNUAL", "2024-03-05", "2024-03-01", "PENDING", none, 7⟩]) ∧
    dateKey "2024-03-01" < dateKey "2024-03-05" := by
  decide

/-- C7 (amended): for a body without non-whitelisted properties, creation
rejects with 400 and persists nothing exactly when one of the two date
fields fails the per-field ISO date-string check, and otherwise persists one
leave carrying the submitted dates verbatim with the PENDING default; no
comparison between startDate and endDate is performed. -/
theorem createLeave_date_validation (c : ClaimSet) (b : CreateLeaveBody)
    (store : LeaveStore) (hnu : b.extraUser = none) :
    (createLeaveDtoValid b = false →
      ∃ resp, createLeaveEndpoint c b store = (.badRequest resp, store) ∧
        resp.statusCode = 400) ∧
    (createLeaveDtoValid b = true →
      ∃ l, createLeaveEndpoint c b store = (.created l, store ++ [l]) ∧
        l.startDate = b.startDate ∧ l.endDate = b.endDate ∧ l.status = "PENDING") := by
  obtain ⟨t, sd, ed, rs, eu⟩ := b
  have heu : eu = none := hnu
  subst heu
  constructor
  · intro hv
    refine ⟨allExceptionsFilter_catch
      (.http 400 "startDate must be a valid ISO 8601 date string" (some "Bad Request")), ?_, rfl⟩
    unfold createLeaveEndpoint
    simp only [hv]
    rfl
  · intro hv
    refine ⟨⟨nextLeaveId store, t, sd, ed, "PENDING", rs, c.userId⟩, ?_, rfl, rfl, rfl⟩
    unfold createLeaveEndpoint
    simp only [hv]
    rfl

/-- C7 (witness): the amended theorem applied at a malformed start date,
which yields 400 and an unchanged store, exhibited via the response status. -/
theorem createLeave_date_validation_witness :
    ∃ resp,
      createLeaveEndpoint ⟨7, UserRole.user⟩
          ⟨"SICK", "invalid-date", "2024-03-05", none, none⟩ []
        = (.badRequest resp, []) ∧ resp.statusCode = 400 :=
  (createLeave_date_validation ⟨7, UserRole.user⟩
      ⟨"SICK", "invalid-date", "2024-03-05", none, none⟩ [] rfl).1 (by decide)

/-- C8: whatever the request body contains, including an extra user property
attempting to name another owner, POST /leaves either changes nothing or
appends exactly one leave whose owning user id is the subject id of the
verified claim set; ownership never comes from the body. -/
theorem create_owner_from_token (c : ClaimSet) (b : CreateLeaveBody)
    (store : LeaveStore) :
    (createLeaveEndpoint c b store).2 = store ∨
    ∃ l, (createLeaveEndpoint c b store).2 = store ++ [l] ∧ l.userId = c.userId := by
  rcases createLeaveEndpoint_store_eq c b store with h | ⟨l, h1, h2, _⟩
  · exact .inl h
  · exact .inr ⟨l, h1, h2⟩

/-- C9: a non-HTTP exception reaching the global filter yields status 500,
but the response body carries the original exception message verbatim
rather than the generic message. -/
theorem filter_leaks_error_message :
    allExceptionsFilter_catch
        (.jsError "duplicate key value violates unique constraint users_email_key")
      = ⟨500, "duplicate key value violates unique constraint users_email_key", none⟩ ∧
    "duplicate key value violates unique constraint users_email_key"
      ≠ "Internal server error" := by
  decide

/-- C10: whenever the register pipeline reports a created user, that user
has role USER, whatever role value the request body carried: the controller
forwards only email, password and name, and the service hard-codes the USER
role. -/
theorem register_ignores_body_role (store : UserStore) (b : AuthRegisterBody)
    (store1 : UserStore) (u : User)
    (h : registerEndpoint store b = (.created u, store1)) :
    u.role = UserRole.user := by
  unfold registerEndpoint at h
  by_cases hv : authRegisterDtoValid b
  · rw [if_neg (by simp [hv])] at h
    cases hm : authService_register store b.email b.password b.name with
    | ok p =>
      rw [hm] at h
      obtain ⟨store2, u2⟩ := p
      simp only [Prod.mk.injEq, RegisterResult.created.injEq] at h
      rw [← h.1]
      exact authService_register_role store b.email b.password b.name store2 u2 hm
    | error e =>
      obtain ⟨d⟩ := e
      rw [hm] at h
      simp at h
  · rw [if_pos (by simp [hv])] at h
    simp at h

/-- C10 (witness): a register body explicitly carrying role admin still
produces a user with role USER; the theorem is applied at that concrete
input. -/
theorem register_ignores_body_role_witness :
    (⟨1, "b@x.com", "$2b$10$secret1", some "Bob", UserRole.user⟩ : User).role
      = UserRole.user :=
  register_ignores_body_role [] ⟨"b@x.com", "secret1", "Bob", some UserRole.admin⟩
    [⟨1, "b@x.com", "$2b$10$secret1", some "Bob", UserRole.user⟩]
    ⟨1, "b@x.com", "$2b$10$secret1", some "Bob", UserRole.user⟩ (by decide)

end LeaveApi
